import Mathlib

/-!
Shallow embedding of the `TResult<T, E>` error-handling type from
`src/Public/ResultType/Result.h`, together with proofs about its public
contract.

Modelling conventions:
- C++ default construction `T()` / default member initialization is modelled by
  `Inhabited.default` (exact for class types such as `FString`, whose default
  constructor runs and produces the empty string; for primitive members C++
  default-initialization leaves the bits indeterminate, and `default` stands in
  for that unobserved content).
- `UE_LOG(LogTemp, Fatal, ...)` aborts the process, so the extraction operations
  that can hit it are modelled as `Except String`: `Except.error msg` is the
  fatal-abort path carrying the log message, `Except.ok` the normal return.
- Move construction consumes its source, so `moveCtor` returns the pair
  (destination, source state after the move).  Copy/move assignment destroy the
  target and reconstruct it in place from the source
  (`this->~TResult(); new(this) TResult(...)`), so their results do not depend
  on the old target value; the `this != &Other` self-assignment guard makes the
  aliased case a no-op, and the assignment models below describe the
  distinct-object case.
- The C++ payload `operator==` used by `TResult::operator==` is modelled as
  decidable propositional equality on the payload types.
-/

namespace ResultErrorHandling

/-- Storage `ResultHelpers::FOkOrErrValue<T, E>` (Result.h lines 25-104): the storage
holds BOTH payloads as unconditional direct members `T OKValue; E ERRValue;`
(lines 100-103); a constructor first default-initializes both members and then
assigns the one being set. -/
structure FOkOrErrValue (T E : Type) where
  OKValue : T
  ERRValue : E

namespace FOkOrErrValue

variable {T E : Type}

/-- Default constructor `FOkOrErrValue() = default`: both members default-initialized. -/
def defaultInit [Inhabited T] [Inhabited E] : FOkOrErrValue T E :=
  ⟨default, default⟩

/-- Accessor `GetOkValue()`: unconditional accessor for the ok slot (no discriminant
check; the member always exists). -/
def GetOkValue (s : FOkOrErrValue T E) : T := s.OKValue

/-- Accessor `GetErrValue()`: unconditional accessor for the err slot. -/
def GetErrValue (s : FOkOrErrValue T E) : E := s.ERRValue

/-- Setter `SetOkValue(Value)`: assigns the ok slot, leaving the err slot unchanged. -/
def SetOkValue (s : FOkOrErrValue T E) (v : T) : FOkOrErrValue T E :=
  { s with OKValue := v }

/-- Setter `SetErrValue(Err)`: assigns the err slot, leaving the ok slot unchanged. -/
def SetErrValue (s : FOkOrErrValue T E) (e : E) : FOkOrErrValue T E :=
  { s with ERRValue := e }

/-- Method `ResetOk()`: `OKValue = T()` — overwrites the ok slot with a
default-constructed value. -/
def ResetOk [Inhabited T] (s : FOkOrErrValue T E) : FOkOrErrValue T E :=
  { s with OKValue := default }

/-- Method `ResetErr()`: `ERRValue = E()`. -/
def ResetErr [Inhabited E] (s : FOkOrErrValue T E) : FOkOrErrValue T E :=
  { s with ERRValue := default }

/-- Tag constructor `FOkOrErrValue(OkTag, Value)`: default-initialize both members, then
`SetOkValue(Value)`. -/
def mkOkTag [Inhabited T] [Inhabited E] (v : T) : FOkOrErrValue T E :=
  defaultInit.SetOkValue v

/-- Tag constructor `FOkOrErrValue(ErrTag, Error)`: default-initialize both members, then
`SetErrValue(Error)`. -/
def mkErrTag [Inhabited T] [Inhabited E] (e : E) : FOkOrErrValue T E :=
  defaultInit.SetErrValue e

end FOkOrErrValue

/-- Class `TResult<T, E>` (Result.h lines 111-356): a boolean discriminant plus the
two-slot storage. -/
structure TResult (T E : Type) where
  bIsOk : Bool
  OkOrErrValue : FOkOrErrValue T E

namespace TResult

variable {T E U F : Type}

/-- Constructor `TResult(OkTag, Value)` (Result.h lines 128-129). -/
def mkOk [Inhabited T] [Inhabited E] (v : T) : TResult T E :=
  ⟨true, FOkOrErrValue.mkOkTag v⟩

/-- Constructor `TResult(ErrTag, Error)` (Result.h lines 131-132). -/
def mkErr [Inhabited T] [Inhabited E] (e : E) : TResult T E :=
  ⟨false, FOkOrErrValue.mkErrTag e⟩

/-- Copy constructor (Result.h lines 135-145): copies the discriminant,
default-initializes the storage, then copies only the active payload. -/
def copyCtor [Inhabited T] [Inhabited E] (other : TResult T E) : TResult T E :=
  ⟨other.bIsOk,
    if other.bIsOk then
      FOkOrErrValue.defaultInit.SetOkValue other.OkOrErrValue.GetOkValue
    else
      FOkOrErrValue.defaultInit.SetErrValue other.OkOrErrValue.GetErrValue⟩

/-- Move constructor (Result.h lines 148-160): copies the discriminant, takes
the active payload, then resets the source's active slot to a
default-constructed value (`ResetOk`/`ResetErr`).  Returns
(destination, source state after the move); the source's discriminant is not
touched. -/
def moveCtor [Inhabited T] [Inhabited E] (other : TResult T E) :
    TResult T E × TResult T E :=
  if other.bIsOk then
    (⟨other.bIsOk, FOkOrErrValue.defaultInit.SetOkValue other.OkOrErrValue.GetOkValue⟩,
     ⟨other.bIsOk, other.OkOrErrValue.ResetOk⟩)
  else
    (⟨other.bIsOk, FOkOrErrValue.defaultInit.SetErrValue other.OkOrErrValue.GetErrValue⟩,
     ⟨other.bIsOk, other.OkOrErrValue.ResetErr⟩)

/-- Copy assignment (Result.h lines 163-171): destroys the target and
copy-constructs in place from `other`; the result is independent of the old
target value (distinct-object case of the `this != &Other` guard). -/
def copyAssign [Inhabited T] [Inhabited E] (_target other : TResult T E) :
    TResult T E :=
  copyCtor other

/-- Move assignment (Result.h lines 173-181): destroys the target and
move-constructs in place from `other`.  Returns (new target, source state after
the move). -/
def moveAssign [Inhabited T] [Inhabited E] (_target other : TResult T E) :
    TResult T E × TResult T E :=
  moveCtor other

/-- Query `IsOk()` (Result.h line 184). -/
def IsOk (r : TResult T E) : Bool := r.bIsOk

/-- Query `IsErr()` (Result.h line 185). -/
def IsErr (r : TResult T E) : Bool := !r.bIsOk

/-- Query `IsOkAnd(Pred)` (Result.h lines 187-191). -/
def IsOkAnd (r : TResult T E) (pred : T → Bool) : Bool :=
  r.bIsOk && pred r.OkOrErrValue.GetOkValue

/-- Query `IsErrAnd(Pred)` (Result.h lines 193-197). -/
def IsErrAnd (r : TResult T E) (pred : E → Bool) : Bool :=
  !r.bIsOk && pred r.OkOrErrValue.GetErrValue

/-- Extraction `Expect(Message)` (Result.h lines 200-207): fatal on an Err with the
caller-supplied message, otherwise returns the ok payload. -/
def Expect (r : TResult T E) (msg : String) : Except String T :=
  if !r.bIsOk then
    Except.error ("Result::Expect failed: " ++ msg)
  else
    Except.ok r.OkOrErrValue.GetOkValue

/-- Extraction `Unwrap()` (Result.h lines 209-216): fatal on an Err, otherwise returns the
ok payload. -/
def Unwrap (r : TResult T E) : Except String T :=
  if !r.bIsOk then
    Except.error "Called Unwrap on an Err Result"
  else
    Except.ok r.OkOrErrValue.GetOkValue

/-- Extraction `UnwrapOr(DefaultValue)` (Result.h lines 218-221). -/
def UnwrapOr (r : TResult T E) (dv : T) : T :=
  if r.bIsOk then r.OkOrErrValue.GetOkValue else dv

/-- Extraction `UnwrapOrElse(Func)` (Result.h lines 223-227). -/
def UnwrapOrElse (r : TResult T E) (f : E → T) : T :=
  if r.bIsOk then r.OkOrErrValue.GetOkValue else f r.OkOrErrValue.GetErrValue

/-- Extraction `ExpectErr(Message)` (Result.h lines 229-236): fatal on an Ok. -/
def ExpectErr (r : TResult T E) (msg : String) : Except String E :=
  if r.bIsOk then
    Except.error ("Result::ExpectErr failed: " ++ msg)
  else
    Except.ok r.OkOrErrValue.GetErrValue

/-- Extraction `UnwrapErr()` (Result.h lines 238-245): fatal on an Ok. -/
def UnwrapErr (r : TResult T E) : Except String E :=
  if r.bIsOk then
    Except.error "Called UnwrapErr on an Ok Result"
  else
    Except.ok r.OkOrErrValue.GetErrValue

/-- Combinator `Map(Func)` (Result.h lines 248-259): on Ok builds `TResult(Ok, Func(v))`,
on Err builds `TResult(Err, e)` with the same error and unchanged error type. -/
def Map [Inhabited E] [Inhabited U] (r : TResult T E) (f : T → U) :
    TResult U E :=
  if r.bIsOk then mkOk (f r.OkOrErrValue.GetOkValue)
  else mkErr r.OkOrErrValue.GetErrValue

/-- Combinator `MapErr(Func)` (Result.h lines 261-272). -/
def MapErr [Inhabited T] [Inhabited F] (r : TResult T E) (f : E → F) :
    TResult T F :=
  if r.bIsOk then mkOk r.OkOrErrValue.GetOkValue
  else mkErr (f r.OkOrErrValue.GetErrValue)

/-- Combinator `AndThen(Func)` (Result.h lines 274-285): on Ok returns `Func(v)` directly,
on Err builds `TResult(Err, e)`. -/
def AndThen [Inhabited E] [Inhabited U] (r : TResult T E)
    (f : T → TResult U E) : TResult U E :=
  if r.bIsOk then f r.OkOrErrValue.GetOkValue
  else mkErr r.OkOrErrValue.GetErrValue

/-- Combinator `OrElse(Func)` (Result.h lines 287-298). -/
def OrElse [Inhabited T] [Inhabited F] (r : TResult T E)
    (f : E → TResult T F) : TResult T F :=
  if r.bIsOk then mkOk r.OkOrErrValue.GetOkValue
  else f r.OkOrErrValue.GetErrValue

/-- Conversion `Ok()` (Result.h lines 301-304): `TOptional<T>` conversion. -/
def Ok (r : TResult T E) : Option T :=
  if r.bIsOk then some r.OkOrErrValue.GetOkValue else none

/-- Conversion `Err()` (Result.h lines 306-309). -/
def Err (r : TResult T E) : Option E :=
  if !r.bIsOk then some r.OkOrErrValue.GetErrValue else none

/-- Combinator `And(Other)` (Result.h lines 312-316): on Ok returns `Other` (by value, so
through the copy constructor), on Err builds `TResult(Err, e)` from its own
error. -/
def And [Inhabited E] [Inhabited U] (r : TResult T E) (other : TResult U E) :
    TResult U E :=
  if r.bIsOk then copyCtor other else mkErr r.OkOrErrValue.GetErrValue

/-- Combinator `Or(Other)` (Result.h lines 318-322): on Ok builds `TResult(Ok, v)` from
its own value, on Err returns `Other` (by value, through the copy
constructor). -/
def Or [Inhabited T] [Inhabited F] (r : TResult T E) (other : TResult T F) :
    TResult T F :=
  if r.bIsOk then mkOk r.OkOrErrValue.GetOkValue else copyCtor other

/-- Comparison `operator==` (Result.h lines 346-350): unequal discriminants compare
false; otherwise only the active slots are compared. -/
def eqOp [DecidableEq T] [DecidableEq E] (a b : TResult T E) : Bool :=
  if a.bIsOk != b.bIsOk then false
  else if a.bIsOk then
    decide (a.OkOrErrValue.GetOkValue = b.OkOrErrValue.GetOkValue)
  else
    decide (a.OkOrErrValue.GetErrValue = b.OkOrErrValue.GetErrValue)

/-- Comparison `operator!=` (Result.h lines 352-355). -/
def neOp [DecidableEq T] [DecidableEq E] (a b : TResult T E) : Bool :=
  !(eqOp a b)

/-- Object-lifetime view of the ok slot.  `some` means a `T` object is within
its lifetime in the storage (`none` would mean no such object exists).  In the
code `OKValue` is an unconditional direct member of `FOkOrErrValue`
(Result.h line 102), constructed on every constructor path, so the slot always
holds a live object. -/
def storedOk (r : TResult T E) : Option T :=
  some r.OkOrErrValue.OKValue

/-- Object-lifetime view of the err slot (Result.h line 103); like `storedOk`,
the member is unconditional, so the slot always holds a live object. -/
def storedErr (r : TResult T E) : Option E :=
  some r.OkOrErrValue.ERRValue

/-- Follows the spec wording "At every observable instant, exactly one of
{value, error} is live; never both, never neither": true iff exactly one of
the two payload slots holds a live object. -/
def specExactlyOneLive (r : TResult T E) : Bool :=
  r.storedOk.isSome != r.storedErr.isSome

end TResult

/-- Factory `MakeOk(Value)` (Result.h lines 359-368): deferred-error-type factory; the
argument of the returned closure only fixes the error type. -/
def MakeOk {T : Type} [Inhabited T] (v : T) : {E : Type} → [Inhabited E] → E → TResult T E :=
  fun _ => TResult.mkOk v

/-- Factory `MakeErr(Error)` (Result.h lines 370-378): deferred-ok-type factory. -/
def MakeErr {E : Type} [Inhabited E] (e : E) : {T : Type} → [Inhabited T] → T → TResult T E :=
  fun _ => TResult.mkErr e

/-- Claim C1, counterexample.  The claim that exactly one of the value payload
and the error payload is live at every observable instant ("never both, never
neither") is false of the code: for the concrete result
`mkOk 5 : TResult Nat String`, both payload slots hold live objects — the error
slot of this Ok result carries a live default-constructed `String`, observable
through the public accessor `GetErrValue`. -/
theorem ok_result_stores_live_err_payload :
    (TResult.mkOk 5 : TResult Nat String).IsOk = true ∧
    (TResult.mkOk 5 : TResult Nat String).specExactlyOneLive = false ∧
    (TResult.mkOk 5 : TResult Nat String).storedErr = some "" ∧
    (TResult.mkOk 5 : TResult Nat String).OkOrErrValue.GetErrValue = "" :=
  ⟨rfl, rfl, rfl, rfl⟩

/-- Claim C1, amended.  Exactly one payload is *active*, designated by the
discriminant (`IsOk` and `IsErr` are mutually exclusive and exhaustive, under
any sequence of operations, since they are complementary views of the one
boolean `bIsOk`), and tag construction leaves a default-constructed value in
the inactive slot; but the storage physically materializes BOTH payload slots
at every instant — both are live, never exactly one. -/
theorem exactly_one_active_payload_both_slots_stored {T E : Type}
    [Inhabited T] [Inhabited E] (r : TResult T E) :
    (r.IsOk = !r.IsErr) ∧
    r.storedOk.isSome = true ∧ r.storedErr.isSome = true ∧
    (∀ v : T, (TResult.mkOk v : TResult T E).storedErr = some default) ∧
    (∀ e : E, (TResult.mkErr e : TResult T E).storedOk = some default) := by
  refine ⟨?_, rfl, rfl, fun v => rfl, fun e => rfl⟩
  simp [TResult.IsOk, TResult.IsErr]

/-- Claim C2.  For every Result (arbitrary discriminant `b` and slot contents
`x`, `y`): `Unwrap` returns the contained value on an Ok and takes the
fatal-abort path (modelled as `Except.error` with the logged message, never a
silently returned default) on an Err; symmetrically `UnwrapErr` and `ExpectErr`
are fatal on an Ok, and `Expect` is fatal on an Err. -/
theorem unwrap_fatal_contract {T E : Type} (x : T) (y : E) (msg : String) :
    (TResult.mk true ⟨x, y⟩ : TResult T E).Unwrap = Except.ok x ∧
    (TResult.mk false ⟨x, y⟩ : TResult T E).Unwrap =
      Except.error "Called Unwrap on an Err Result" ∧
    (TResult.mk false ⟨x, y⟩ : TResult T E).UnwrapErr = Except.ok y ∧
    (TResult.mk true ⟨x, y⟩ : TResult T E).UnwrapErr =
      Except.error "Called UnwrapErr on an Ok Result" ∧
    (TResult.mk true ⟨x, y⟩ : TResult T E).ExpectErr msg =
      Except.error ("Result::ExpectErr failed: " ++ msg) ∧
    (TResult.mk false ⟨x, y⟩ : TResult T E).Expect msg =
      Except.error ("Result::Expect failed: " ++ msg) :=
  ⟨rfl, rfl, rfl, rfl, rfl, rfl⟩

/-- Claim C3.  For every value `v`, `Ok(v)` satisfies `IsOk = true`,
`IsErr = false` and `Unwrap = v`; for every error `e`, `Err(e)` satisfies
`IsErr = true` and `UnwrapErr = e`. -/
theorem tag_construction_query_extraction {T E : Type} [Inhabited T]
    [Inhabited E] (v : T) (e : E) :
    (TResult.mkOk v : TResult T E).IsOk = true ∧
    (TResult.mkOk v : TResult T E).IsErr = false ∧
    (TResult.mkOk v : TResult T E).Unwrap = Except.ok v ∧
    (TResult.mkErr e : TResult T E).IsErr = true ∧
    (TResult.mkErr e : TResult T E).UnwrapErr = Except.ok e :=
  ⟨rfl, rfl, rfl, rfl, rfl⟩

/-- Claim C4.  `Ok(v).Map f` is `Ok (f v)` (so its `Unwrap` is `f v`), and
`Err(e).Map f` is `Err e` with the error type unchanged (enforced by the type
of `Map`) and `f` never invoked (the result does not depend on `f`). -/
theorem map_ok_err_behavior {T E U : Type} [Inhabited T] [Inhabited E]
    [Inhabited U] (v : T) (e : E) (f : T → U) :
    (TResult.mkOk v : TResult T E).Map f = TResult.mkOk (f v) ∧
    ((TResult.mkOk v : TResult T E).Map f).Unwrap = Except.ok (f v) ∧
    (TResult.mkErr e : TResult T E).Map f = (TResult.mkErr e : TResult U E) ∧
    (∀ g : T → U, (TResult.mkErr e : TResult T E).Map f =
      (TResult.mkErr e : TResult T E).Map g) :=
  ⟨rfl, rfl, rfl, fun _ => rfl⟩

/-- Claim C5.  `Ok(v).AndThen f` is `f v` directly, and `Err(e).AndThen f` is
`Err e` with `f` never invoked (the result does not depend on `f`). -/
theorem and_then_ok_err_behavior {T E U : Type} [Inhabited T] [Inhabited E]
    [Inhabited U] (v : T) (e : E) (f : T → TResult U E) :
    (TResult.mkOk v : TResult T E).AndThen f = f v ∧
    (TResult.mkErr e : TResult T E).AndThen f = (TResult.mkErr e : TResult U E) ∧
    (∀ g : T → TResult U E, (TResult.mkErr e : TResult T E).AndThen f =
      (TResult.mkErr e : TResult T E).AndThen g) ∧
    ((TResult.mkErr e : TResult T E).AndThen f).UnwrapErr = Except.ok e :=
  ⟨rfl, rfl, fun _ => rfl, rfl⟩

/-- Claim C6.  Short-circuit left-to-right order of `And`/`Or`:
`Ok(v).And other` returns `other` as-is (shown on both variants of `other`),
`Err(e1).And other` returns `Err e1` — the first error — for every `other`;
`Ok(v).Or other` returns `Ok v` for every `other`, and `Err(e1).Or other`
returns `other` as-is, so `Err(e1).Or (Err f2)` yields the second error
`f2`. -/
theorem and_or_short_circuit_order {T E U F : Type} [Inhabited T] [Inhabited E]
    [Inhabited U] [Inhabited F] (v v2 : T) (u : U) (e : E) (e1 : E) (f2 : F) :
    ((TResult.mkOk v : TResult T E).And (TResult.mkOk u : TResult U E) =
      TResult.mkOk u) ∧
    ((TResult.mkOk v : TResult T E).And (TResult.mkErr e : TResult U E) =
      TResult.mkErr e) ∧
    (∀ other : TResult U E, (TResult.mkErr e1 : TResult T E).And other =
      (TResult.mkErr e1 : TResult U E)) ∧
    (∀ other : TResult T F, (TResult.mkOk v : TResult T E).Or other =
      (TResult.mkOk v : TResult T F)) ∧
    ((TResult.mkErr e1 : TResult T E).Or (TResult.mkOk v2 : TResult T F) =
      TResult.mkOk v2) ∧
    ((TResult.mkErr e1 : TResult T E).Or (TResult.mkErr f2 : TResult T F) =
      TResult.mkErr f2) ∧
    (((TResult.mkErr e1 : TResult T E).Or (TResult.mkErr f2 : TResult T F)).UnwrapErr
      = Except.ok f2) :=
  ⟨rfl, rfl, fun _ => rfl, fun _ => rfl, rfl, rfl, rfl⟩

/-- Claim C7.  Equality requires matching discriminants: both-Ok compares
values, both-Err compares errors, and Ok vs Err is always unequal regardless
of the payloads; equality is reflexive and symmetric, and `operator!=` is its
negation. -/
theorem equality_discriminant_gated {T E : Type} [Inhabited T] [Inhabited E]
    [DecidableEq T] [DecidableEq E] (v1 v2 : T) (e1 e2 : E)
    (a b : TResult T E) :
    TResult.eqOp (TResult.mkOk v1 : TResult T E) (TResult.mkOk v2) =
      decide (v1 = v2) ∧
    TResult.eqOp (TResult.mkErr e1 : TResult T E) (TResult.mkErr e2) =
      decide (e1 = e2) ∧
    TResult.eqOp (TResult.mkOk v1 : TResult T E) (TResult.mkErr e1) = false ∧
    TResult.eqOp (TResult.mkErr e1 : TResult T E) (TResult.mkOk v1) = false ∧
    TResult.eqOp a a = true ∧
    TResult.eqOp a b = TResult.eqOp b a ∧
    TResult.neOp a b = !(TResult.eqOp a b) := by
  refine ⟨rfl, rfl, rfl, rfl, ?_, ?_, rfl⟩
  · obtain ⟨ba, sa⟩ := a
    cases ba <;> simp [TResult.eqOp]
  · obtain ⟨ba, sa⟩ := a
    obtain ⟨bb, sb⟩ := b
    cases ba <;> cases bb <;> simp [TResult.eqOp, decide_eq_decide, eq_comm]

/-- Claim C8.  For every Result (arbitrary discriminant and slots) and default
`d`: `UnwrapOr d` returns the contained value on an Ok and `d` otherwise;
`UnwrapOrElse f` returns the contained value on an Ok and `f error` otherwise,
and `f` is never invoked on an Ok (the result does not depend on `f`). -/
theorem unwrap_or_and_else_behavior {T E : Type} (x : T) (y : E) (d : T)
    (f g : E → T) :
    (TResult.mk true ⟨x, y⟩ : TResult T E).UnwrapOr d = x ∧
    (TResult.mk false ⟨x, y⟩ : TResult T E).UnwrapOr d = d ∧
    (TResult.mk true ⟨x, y⟩ : TResult T E).UnwrapOrElse f = x ∧
    (TResult.mk false ⟨x, y⟩ : TResult T E).UnwrapOrElse f = f y ∧
    (TResult.mk true ⟨x, y⟩ : TResult T E).UnwrapOrElse f =
      (TResult.mk true ⟨x, y⟩ : TResult T E).UnwrapOrElse g :=
  ⟨rfl, rfl, rfl, rfl, rfl⟩

/-- Claim C9.  After move-constructing or move-assigning from `Ok(v)`, the
destination satisfies `IsOk = true` and `Unwrap = v`; and for every source the
moved-from Result's discriminant is unchanged (it stays a well-formed,
destructible value of the model). -/
theorem move_preserves_value_and_discriminant {T E : Type} [Inhabited T]
    [Inhabited E] (v : T) (r target : TResult T E) :
    (TResult.moveCtor (TResult.mkOk v : TResult T E)).1.IsOk = true ∧
    (TResult.moveCtor (TResult.mkOk v : TResult T E)).1.Unwrap = Except.ok v ∧
    (TResult.moveAssign target (TResult.mkOk v : TResult T E)).1.IsOk = true ∧
    (TResult.moveAssign target (TResult.mkOk v : TResult T E)).1.Unwrap =
      Except.ok v ∧
    (TResult.moveCtor r).2.bIsOk = r.bIsOk ∧
    (TResult.moveAssign target r).2.bIsOk = r.bIsOk := by
  refine ⟨rfl, rfl, rfl, rfl, ?_, ?_⟩ <;>
    · obtain ⟨b, s⟩ := r
      cases b <;> rfl

/-- Claim C10.  Move-construction leaves the moved-from Result fully defined:
its discriminant is unchanged, its previously active slot is overwritten with
a default-constructed value (`T()` after moving an Ok, `E()` after moving an
Err), and the inactive slot is untouched; in particular, after moving from
`Ok(v)` the source still reports `IsOk = true` and its value reads as the
default. -/
theorem moved_from_reset_active_slot {T E : Type} [Inhabited T] [Inhabited E]
    (x : T) (y : E) (v : T) :
    (TResult.moveCtor (TResult.mk true ⟨x, y⟩ : TResult T E)).2 =
      TResult.mk true ⟨default, y⟩ ∧
    (TResult.moveCtor (TResult.mk false ⟨x, y⟩ : TResult T E)).2 =
      TResult.mk false ⟨x, default⟩ ∧
    (TResult.moveCtor (TResult.mkOk v : TResult T E)).2.IsOk = true ∧
    (TResult.moveCtor (TResult.mkOk v : TResult T E)).2.OkOrErrValue.GetOkValue
      = default :=
  ⟨rfl, rfl, rfl, rfl⟩

end ResultErrorHandling
